import Mathlib

/-
Verification development for the bluetooth-audio-connector-tg5040 program
(src/src/main.rs). The definitions below are a shallow embedding of the
parts of the program that the verified properties talk about:

* the device record and the two status enumerations (main.rs lines 36 to 50
  and 474 to 480);
* the scan-event fold performed by the discovery worker inside its timeout
  window (main.rs lines 368 to 442);
* one iteration of the connection worker (main.rs lines 493 to 533), with
  the fallible adapter operations abstracted as an explicit record of
  Except-valued functions and with the uncaught out-of-range Vec indexing
  modelled as an Except.error of Unit (a Rust panic, which is not caught by
  the if-let-Err branch and kills the spawned task);
* a small transition system for the control loop of main (main.rs lines
  110 to 351) together with the two background workers, with the capacity-1
  command channel modelled as a Boolean slot and Rust usize underflow and
  out-of-range Vec indexing modelled as Except.error (a panic in a debug
  build; in a release build the wrapped index still makes the subsequent
  Vec indexing fault).

Hardware addresses (bluer::Address, six bytes) are modelled as Nat: the
program only ever compares them for equality and prints them.
-/

/-- Hardware address of a bluetooth device. The program only compares
addresses for equality, so Nat is an adequate model of the six-byte value. -/
abbrev Address := Nat

/-- The fragment of bluer DeviceProperty that the discovery worker reads
(main.rs lines 398 to 411): name, paired, connected; everything else is
ignored. -/
inductive DeviceProperty where
  | name (s : String)
  | paired (b : Bool)
  | connected (b : Bool)
  | other
deriving DecidableEq, Repr

/-- BluetoothDeviceInfo from main.rs lines 474 to 480. -/
structure BluetoothDeviceInfo where
  addr : Address
  name : String
  paired : Bool
  connected : Bool
deriving DecidableEq, Repr

/-- The Default derive of BluetoothDeviceInfo: zero address, empty name,
both flags false. -/
def BluetoothDeviceInfo.defaultInfo : BluetoothDeviceInfo :=
  { addr := 0, name := "", paired := false, connected := false }

/-- BluetoothScanStatus from main.rs lines 36 to 42. -/
inductive BluetoothScanStatus where
  | Disable
  | Scanning
  | Finished
  | Failed
deriving DecidableEq, Repr

/-- BluetoothConnectStatus from main.rs lines 44 to 50. -/
inductive BluetoothConnectStatus where
  | Disable
  | Connecting
  | Finished
  | Failed (reason : String)
deriving DecidableEq, Repr

/-- An adapter event as consumed by the discovery worker. deviceAdded
carries the outcome of the two property-fetch calls made for the added
device (adapter.device and device.all_properties, main.rs lines 380 to
393): none means one of them failed, in which case the worker logs and
skips the device. -/
inductive AdapterEvent where
  | deviceAdded (addr : Address) (fetch : Option (List DeviceProperty))
  | deviceRemoved (addr : Address)
  | other
deriving DecidableEq, Repr

/-- The property fold of main.rs lines 398 to 411: later properties of the
same kind overwrite earlier ones, unknown properties are ignored. -/
def applyProps (info : BluetoothDeviceInfo) : List DeviceProperty → BluetoothDeviceInfo
  | [] => info
  | DeviceProperty.name s :: rest => applyProps { info with name := s } rest
  | DeviceProperty.paired b :: rest => applyProps { info with paired := b } rest
  | DeviceProperty.connected b :: rest => applyProps { info with connected := b } rest
  | DeviceProperty.other :: rest => applyProps info rest

/-- The removal loop of main.rs lines 415 to 421: scan the vector in order,
remove the first record whose address matches, then break. -/
def removeFirstByAddr (addr : Address) : List BluetoothDeviceInfo → List BluetoothDeviceInfo
  | [] => []
  | d :: rest => if d.addr = addr then rest else d :: removeFirstByAddr addr rest

/-- The event loop of main.rs lines 377 to 425: fold the events of one scan
window over the accumulated device vector. An added device whose property
fetch failed is skipped; an added device is pushed at the end with its
address set and its properties folded in; a removal deletes the first
matching record. -/
def scanDevices (acc : List BluetoothDeviceInfo) : List AdapterEvent → List BluetoothDeviceInfo
  | [] => acc
  | AdapterEvent.deviceAdded a (some props) :: rest =>
      scanDevices (acc ++ [applyProps { BluetoothDeviceInfo.defaultInfo with addr := a } props]) rest
  | AdapterEvent.deviceAdded _ none :: rest => scanDevices acc rest
  | AdapterEvent.deviceRemoved a :: rest => scanDevices (removeFirstByAddr a acc) rest
  | AdapterEvent.other :: rest => scanDevices acc rest

/-- One scan cycle of the discovery worker, main.rs lines 368 to 442.
openResult is the outcome of adapter.discover_devices (the only fallible
adapter-level step; the event stream itself yields plain events). On an
open error the catch branch at lines 439 to 442 stores Failed and touches
neither the published device vector nor the connect status. On success the
collected devices are published wholesale, the connect status is forced to
Finished when some collected device reports connected, and the scan status
becomes Finished. The returned triple is (scan status, published roster,
connect status). -/
def scanCycle (oldRoster : List BluetoothDeviceInfo) (oldConnect : BluetoothConnectStatus)
    (openResult : Except String (List AdapterEvent)) :
    BluetoothScanStatus × List BluetoothDeviceInfo × BluetoothConnectStatus :=
  match openResult with
  | Except.error _ => (BluetoothScanStatus.Failed, oldRoster, oldConnect)
  | Except.ok evs =>
      let devices := scanDevices [] evs
      ( BluetoothScanStatus.Finished
      , devices
      , if devices.any (fun d => d.connected) then BluetoothConnectStatus.Finished else oldConnect )

/-- Number of roster records flagged connected. -/
def countConnected (r : List BluetoothDeviceInfo) : Nat :=
  (r.filter (fun d => d.connected)).length

/-- How many times an address occurs in an address list. -/
def countAddr (a : Address) : List Address → Nat
  | [] => 0
  | b :: rest => (if b = a then 1 else 0) + countAddr a rest

/-- Boolean membership of an address in an address list. -/
def containsAddr (a : Address) : List Address → Bool
  | [] => false
  | b :: rest => b = a || containsAddr a rest

/-- Erase the first occurrence of an address from an address list; the
identifier-level image of removeFirstByAddr. -/
def eraseAddr (a : Address) : List Address → List Address
  | [] => []
  | b :: rest => if b = a then rest else b :: eraseAddr a rest

/-- Every address in the list occurs only once. -/
def nodupAddrs : List Address → Bool
  | [] => true
  | b :: rest => !containsAddr b rest && nodupAddrs rest

/-- Modelled from the spec: the identifiers of the devices "added and not
subsequently removed" during a scan window, starting from a list of
identifiers already present. An add appends the identifier, a removal
erases its first occurrence, other events change nothing. -/
def expectedIds (present : List Address) : List AdapterEvent → List Address
  | [] => present
  | AdapterEvent.deviceAdded a _ :: rest => expectedIds (present ++ [a]) rest
  | AdapterEvent.deviceRemoved a :: rest => expectedIds (eraseAddr a present) rest
  | AdapterEvent.other :: rest => expectedIds present rest

/-- The event sequences for which the roster-exactness property is claimed:
every property fetch of an added device succeeds, and no identifier is
added while it is still present in the accumulated list. -/
def goodEvents (present : List Address) : List AdapterEvent → Bool
  | [] => true
  | AdapterEvent.deviceAdded a (some _) :: rest =>
      !containsAddr a present && goodEvents (present ++ [a]) rest
  | AdapterEvent.deviceAdded _ none :: _ => false
  | AdapterEvent.deviceRemoved a :: rest => goodEvents (eraseAddr a present) rest
  | AdapterEvent.other :: rest => goodEvents present rest

example :
    (scanDevices [] [AdapterEvent.deviceAdded 1 (some [DeviceProperty.name "a"]),
      AdapterEvent.deviceAdded 2 (some []), AdapterEvent.deviceRemoved 1]).map
      (fun d => d.addr) = [2] := by decide

example :
    scanCycle [BluetoothDeviceInfo.defaultInfo] BluetoothConnectStatus.Disable
      (Except.error "no adapter") =
      (BluetoothScanStatus.Failed, [BluetoothDeviceInfo.defaultInfo],
        BluetoothConnectStatus.Disable) := by decide

/-- The per-device adapter operations used by the connection worker, each
fallible, with errors carried as their human-readable message (the String
that err.to_string produces in main.rs line 531). device models
adapter.device (handle construction), the rest the corresponding bluer
device methods. -/
structure ConnectAdapter where
  device : Address → Except String Unit
  disconnect : Address → Except String Unit
  isPaired : Address → Except String Bool
  pair : Address → Except String Unit
  isConnected : Address → Except String Bool
  connect : Address → Except String Unit

/-- The disconnect loop of main.rs lines 499 to 506: walk the working copy
in order; for each record flagged connected, build the device handle and
disconnect it, clearing the flag on success; the first error aborts the
whole operation (the question-mark operator). -/
def disconnectAll (a : ConnectAdapter) : List BluetoothDeviceInfo →
    Except String (List BluetoothDeviceInfo)
  | [] => Except.ok []
  | d :: rest =>
      if d.connected then
        match a.device d.addr with
        | Except.error m => Except.error m
        | Except.ok _ =>
            match a.disconnect d.addr with
            | Except.error m => Except.error m
            | Except.ok _ =>
                match disconnectAll a rest with
                | Except.error m => Except.error m
                | Except.ok rest2 => Except.ok ({ d with connected := false } :: rest2)
      else
        match disconnectAll a rest with
        | Except.error m => Except.error m
        | Except.ok rest2 => Except.ok (d :: rest2)

/-- The pair-and-connect sequence of main.rs lines 509 to 517 for the
selected address: build the handle, pair when not yet paired, connect when
not yet connected; the first error aborts. -/
def pairAndConnect (a : ConnectAdapter) (addr : Address) : Except String Unit :=
  match a.device addr with
  | Except.error m => Except.error m
  | Except.ok _ =>
      match a.isPaired addr with
      | Except.error m => Except.error m
      | Except.ok p =>
          match (if p then Except.ok () else a.pair addr : Except String Unit) with
          | Except.error m => Except.error m
          | Except.ok _ =>
              match a.isConnected addr with
              | Except.error m => Except.error m
              | Except.ok c => if c then Except.ok () else a.connect addr

/-- One iteration of the connection worker, main.rs lines 493 to 533.
published is the roster visible in the shared swap cell when the iteration
starts; idx is the received selection index. The result Except.ok carries
the pair (roster visible after the iteration, final connect status): the
store at line 521 runs only on full success, so every caught failure leaves
the published roster untouched and stores Failed with the error message.
The Vec indexing device_infos[idx] at line 509 is outside the caught-error
plumbing: when idx is out of range it panics, modelled as Except.error (),
which kills the spawned task and leaves the status at Connecting. -/
def connectIter (a : ConnectAdapter) (published : List BluetoothDeviceInfo) (idx : Nat) :
    Except Unit (List BluetoothDeviceInfo × BluetoothConnectStatus) :=
  match disconnectAll a published with
  | Except.error m => Except.ok (published, BluetoothConnectStatus.Failed m)
  | Except.ok working =>
      if h : idx < working.length then
        match pairAndConnect a (working.get ⟨idx, h⟩).addr with
        | Except.error m => Except.ok (published, BluetoothConnectStatus.Failed m)
        | Except.ok _ =>
            Except.ok
              ( working.set idx { working.get ⟨idx, h⟩ with connected := true }
              , BluetoothConnectStatus.Finished )
      else
        Except.error ()

/-- An adapter on which every operation succeeds; the selected device
reports paired and not yet connected. -/
def okAdapter : ConnectAdapter :=
  { device := fun _ => Except.ok ()
  , disconnect := fun _ => Except.ok ()
  , isPaired := fun _ => Except.ok true
  , pair := fun _ => Except.ok ()
  , isConnected := fun _ => Except.ok false
  , connect := fun _ => Except.ok () }

/-- An adapter on which handle construction and disconnect succeed, the
selected device is not yet paired, and pairing fails. -/
def pairFailAdapter : ConnectAdapter :=
  { device := fun _ => Except.ok ()
  , disconnect := fun _ => Except.ok ()
  , isPaired := fun _ => Except.ok false
  , pair := fun _ => Except.error "pairing rejected"
  , isConnected := fun _ => Except.ok false
  , connect := fun _ => Except.ok () }

example :
    connectIter okAdapter [{ BluetoothDeviceInfo.defaultInfo with addr := 7 }] 0 =
      Except.ok ([{ BluetoothDeviceInfo.defaultInfo with addr := 7, connected := true }],
        BluetoothConnectStatus.Finished) := rfl

example : connectIter okAdapter [] 0 = Except.error () := rfl

example :
    connectIter pairFailAdapter [{ BluetoothDeviceInfo.defaultInfo with addr := 7 }] 0 =
      Except.ok ([{ BluetoothDeviceInfo.defaultInfo with addr := 7 }],
        BluetoothConnectStatus.Failed "pairing rejected") := rfl

/-- The state shared between the control loop of main (main.rs lines 110 to
351) and the discovery worker. scanSlot models the capacity-1 command
channel of line 119 (true when a command sits undelivered in it); scanning
is true while the worker is inside one scan cycle (between recv and the
final status store); publishes counts the stores into the shared device
swap cell performed by the discovery worker (line 433); scanCmdsSent counts
the try_send calls made on the scan command channel (lines 130 and 176). -/
structure SysState where
  powered : Bool
  scanStatus : BluetoothScanStatus
  roster : List BluetoothDeviceInfo
  index : Nat
  connectStatus : BluetoothConnectStatus
  scanSlot : Bool
  scanning : Bool
  publishes : Nat
  scanCmdsSent : Nat
deriving DecidableEq, Repr

/-- The atomic actions interleaved between the control loop and the
discovery worker. powerOn and powerOff are the Y and X key handlers
(main.rs lines 165 to 190); navUp and navDown the arrow handlers (lines 193
to 216); renderFinished the roster read of the render path when the scan
status is Finished (lines 291 to 317); workerRecv the dequeue at line 364
followed by the Scanning store at line 369; workerFinish the end of a scan
window with the given collected events (lines 376 to 435); workerFail the
catch branch at lines 439 to 442 after an adapter-level error. -/
inductive Act where
  | powerOn
  | powerOff
  | navUp
  | navDown
  | renderFinished
  | workerRecv
  | workerFinish (evs : List AdapterEvent)
  | workerFail
deriving DecidableEq, Repr

/-- mpsc try_send on the capacity-1 scan command channel: a full slot drops
the command (only the attempt counter moves), an empty slot keeps it. -/
def trySendScan (s : SysState) : SysState :=
  if s.scanSlot then { s with scanCmdsSent := s.scanCmdsSent + 1 }
  else { s with scanSlot := true, scanCmdsSent := s.scanCmdsSent + 1 }

/-- One atomic action. Except.error models a Rust panic: the usize
underflow of len() - 1 in the arrow handlers when the roster is empty
(main.rs lines 199 and 211) and the out-of-range Vec indexing of the render
path (line 300). Guards compare against the current scan status; the
program reads the status once per frame (line 151), which coincides with
this for traces that perform one action per frame. -/
def stepE (s : SysState) : Act → Except String SysState
  | Act.powerOn =>
      if s.powered then Except.ok s
      else Except.ok (trySendScan { s with
        powered := true, scanStatus := BluetoothScanStatus.Disable, index := 0 })
  | Act.powerOff =>
      if s.powered then
        Except.ok { s with
          powered := false, scanStatus := BluetoothScanStatus.Disable, index := 0 }
      else Except.ok s
  | Act.navUp =>
      if s.scanStatus = BluetoothScanStatus.Finished then
        if s.index = 0 then
          if s.roster.length = 0 then Except.error "attempt to subtract with overflow"
          else Except.ok { s with index := s.roster.length - 1 }
        else Except.ok { s with index := s.index - 1 }
      else Except.ok s
  | Act.navDown =>
      if s.scanStatus = BluetoothScanStatus.Finished then
        if s.roster.length = 0 then Except.error "attempt to subtract with overflow"
        else if s.index = s.roster.length - 1 then Except.ok { s with index := 0 }
        else Except.ok { s with index := s.index + 1 }
      else Except.ok s
  | Act.renderFinished =>
      if s.scanStatus = BluetoothScanStatus.Finished then
        if s.index < s.roster.length then Except.ok s
        else Except.error "index out of bounds"
      else Except.ok s
  | Act.workerRecv =>
      if s.scanSlot && !s.scanning then
        Except.ok { s with
          scanSlot := false, scanning := true, scanStatus := BluetoothScanStatus.Scanning }
      else Except.ok s
  | Act.workerFinish evs =>
      if s.scanning then
        let devices := scanDevices [] evs
        Except.ok { s with
          scanning := false
          roster := devices
          scanStatus := BluetoothScanStatus.Finished
          publishes := s.publishes + 1
          connectStatus :=
            if devices.any (fun d => d.connected) then BluetoothConnectStatus.Finished
            else s.connectStatus }
      else Except.ok s
  | Act.workerFail =>
      if s.scanning then
        Except.ok { s with scanning := false, scanStatus := BluetoothScanStatus.Failed }
      else Except.ok s

/-- The state right after the startup sequence of main.rs lines 110 to 131:
empty roster, both statuses Disable, index 0, and one scan command sent iff
the adapter reports powered. -/
def initState (powered : Bool) : SysState :=
  let s : SysState :=
    { powered := powered
    , scanStatus := BluetoothScanStatus.Disable
    , roster := []
    , index := 0
    , connectStatus := BluetoothConnectStatus.Disable
    , scanSlot := false
    , scanning := false
    , publishes := 0
    , scanCmdsSent := 0 }
  if powered then trySendScan s else s

/-- Run a list of atomic actions in order, stopping at the first panic. -/
def run (s : SysState) : List Act → Except String SysState
  | [] => Except.ok s
  | a :: rest =>
      match stepE s a with
      | Except.ok s2 => run s2 rest
      | Except.error e => Except.error e

example :
    (run (initState true) [Act.workerRecv, Act.workerFinish []]).map
      (fun s => (s.scanStatus, s.roster, s.index)) =
      Except.ok (BluetoothScanStatus.Finished, [], 0) := rfl

example :
    run (initState true) [Act.workerRecv, Act.workerFinish [], Act.navUp] =
      Except.error "attempt to subtract with overflow" := rfl

theorem applyProps_addr (ps : List DeviceProperty) :
    ∀ i : BluetoothDeviceInfo, (applyProps i ps).addr = i.addr := by
  induction ps with
  | nil => intro i; rfl
  | cons p rest ih => intro i; cases p <;> simp [applyProps, ih]

theorem removeFirstByAddr_map_addr (a : Address) (l : List BluetoothDeviceInfo) :
    (removeFirstByAddr a l).map (fun d => d.addr) = eraseAddr a (l.map (fun d => d.addr)) := by
  induction l with
  | nil => rfl
  | cons d rest ih =>
    by_cases h : d.addr = a
    · simp [removeFirstByAddr, eraseAddr, h]
    · simp [removeFirstByAddr, eraseAddr, h, ih]

theorem scanDevices_map_addr (evs : List AdapterEvent) :
    ∀ acc : List BluetoothDeviceInfo,
      goodEvents (acc.map (fun d => d.addr)) evs = true →
      (scanDevices acc evs).map (fun d => d.addr) = expectedIds (acc.map (fun d => d.addr)) evs := by
  induction evs with
  | nil => intro acc _; rfl
  | cons e rest ih =>
    intro acc h
    cases e with
    | deviceAdded a fetch =>
      cases fetch with
      | some props =>
        rw [goodEvents, Bool.and_eq_true] at h
        have hmap :
            ((acc ++ [applyProps { BluetoothDeviceInfo.defaultInfo with addr := a } props]).map
              (fun d => d.addr)) = acc.map (fun d => d.addr) ++ [a] := by
          simp [applyProps_addr]
        rw [scanDevices, expectedIds]
        have h2 := ih (acc ++ [applyProps { BluetoothDeviceInfo.defaultInfo with addr := a } props])
          (by rw [hmap]; exact h.2)
        rw [hmap] at h2
        exact h2
      | none =>
        rw [goodEvents] at h
        exact absurd h (by simp)
    | deviceRemoved a =>
      rw [goodEvents] at h
      rw [scanDevices, expectedIds]
      have hm := removeFirstByAddr_map_addr a acc
      have h2 := ih (removeFirstByAddr a acc) (by rw [hm]; exact h)
      rw [hm] at h2
      exact h2
    | other =>
      rw [goodEvents] at h
      rw [scanDevices, expectedIds]
      exact ih acc h

theorem containsAddr_append_one (x y : Address) (l : List Address) :
    containsAddr x (l ++ [y]) = (containsAddr x l || decide (y = x)) := by
  induction l with
  | nil => simp [containsAddr]
  | cons b rest ih => simp [containsAddr, ih, Bool.or_assoc]

theorem containsAddr_eraseAddr_false (x a : Address) (l : List Address)
    (h : containsAddr x l = false) : containsAddr x (eraseAddr a l) = false := by
  induction l with
  | nil => rfl
  | cons b rest ih =>
    rw [containsAddr, Bool.or_eq_false_iff] at h
    by_cases hb : b = a
    · simp [eraseAddr, hb, h.2]
    · rw [eraseAddr, if_neg hb, containsAddr, Bool.or_eq_false_iff]
      exact ⟨h.1, ih h.2⟩

theorem nodupAddrs_append_one (a : Address) (l : List Address)
    (hmem : containsAddr a l = false) (hnd : nodupAddrs l = true) :
    nodupAddrs (l ++ [a]) = true := by
  induction l with
  | nil => simp [nodupAddrs, containsAddr]
  | cons b rest ih =>
    rw [containsAddr, Bool.or_eq_false_iff] at hmem
    rw [nodupAddrs, Bool.and_eq_true] at hnd
    rw [List.cons_append, nodupAddrs, Bool.and_eq_true]
    refine ⟨?_, ih hmem.2 hnd.2⟩
    rw [containsAddr_append_one, Bool.not_eq_true', Bool.or_eq_false_iff]
    refine ⟨by rw [Bool.not_eq_true'] at hnd; exact hnd.1, ?_⟩
    simp only [decide_eq_false_iff_not]
    intro hab
    rw [hab] at hmem
    simp at hmem

theorem nodupAddrs_eraseAddr (a : Address) (l : List Address)
    (hnd : nodupAddrs l = true) : nodupAddrs (eraseAddr a l) = true := by
  induction l with
  | nil => rfl
  | cons b rest ih =>
    rw [nodupAddrs, Bool.and_eq_true] at hnd
    by_cases hb : b = a
    · rw [eraseAddr, if_pos hb]
      exact hnd.2
    · rw [eraseAddr, if_neg hb, nodupAddrs, Bool.and_eq_true]
      refine ⟨?_, ih hnd.2⟩
      rw [Bool.not_eq_true']
      rw [Bool.not_eq_true'] at hnd
      exact containsAddr_eraseAddr_false b a rest hnd.1

theorem expectedIds_nodup (evs : List AdapterEvent) :
    ∀ present : List Address, goodEvents present evs = true → nodupAddrs present = true →
      nodupAddrs (expectedIds present evs) = true := by
  induction evs with
  | nil => intro present _ hnd; exact hnd
  | cons e rest ih =>
    intro present h hnd
    cases e with
    | deviceAdded a fetch =>
      cases fetch with
      | some props =>
        rw [goodEvents, Bool.and_eq_true] at h
        rw [expectedIds]
        refine ih (present ++ [a]) h.2 ?_
        refine nodupAddrs_append_one a present ?_ hnd
        rw [Bool.not_eq_true'] at h
        exact h.1
      | none =>
        rw [goodEvents] at h
        exact absurd h (by simp)
    | deviceRemoved a =>
      rw [goodEvents] at h
      rw [expectedIds]
      exact ih (eraseAddr a present) h (nodupAddrs_eraseAddr a present hnd)
    | other =>
      rw [goodEvents] at h
      rw [expectedIds]
      exact ih present h hnd

theorem disconnectAll_flags (a : ConnectAdapter) :
    ∀ l w : List BluetoothDeviceInfo, disconnectAll a l = Except.ok w →
      ∀ d ∈ w, d.connected = false := by
  intro l
  induction l with
  | nil =>
    intro w hw d hd
    simp only [disconnectAll] at hw
    cases hw
    simp at hd
  | cons d rest ih =>
    intro w hw x hx
    by_cases hc : d.connected
    · simp only [disconnectAll, hc, if_true] at hw
      cases hdev : a.device d.addr with
      | error m => rw [hdev] at hw; simp at hw
      | ok u =>
        rw [hdev] at hw
        cases hdis : a.disconnect d.addr with
        | error m => rw [hdis] at hw; simp at hw
        | ok u2 =>
          rw [hdis] at hw
          cases hrest : disconnectAll a rest with
          | error m => rw [hrest] at hw; simp at hw
          | ok rest2 =>
            rw [hrest] at hw
            simp only [Except.ok.injEq] at hw
            subst hw
            cases hx with
            | head => rfl
            | tail _ hmem => exact ih rest2 hrest x hmem
    · simp only [disconnectAll, hc, Bool.false_eq_true, if_false] at hw
      cases hrest : disconnectAll a rest with
      | error m => rw [hrest] at hw; simp at hw
      | ok rest2 =>
        rw [hrest] at hw
        simp only [Except.ok.injEq] at hw
        subst hw
        cases hx with
        | head => exact Bool.eq_false_iff.mpr hc
        | tail _ hmem => exact ih rest2 hrest x hmem

theorem disconnectAll_of_flags (a : ConnectAdapter) :
    ∀ l : List BluetoothDeviceInfo, (∀ d ∈ l, d.connected = false) →
      disconnectAll a l = Except.ok l := by
  intro l
  induction l with
  | nil => intro _; rfl
  | cons d rest ih =>
    intro h
    have hd : d.connected = false := h d (by simp)
    simp only [disconnectAll, hd, Bool.false_eq_true, if_false]
    rw [ih (fun x hx => h x (by simp [hx]))]

theorem countConnected_cons (d : BluetoothDeviceInfo) (r : List BluetoothDeviceInfo) :
    countConnected (d :: r) = (if d.connected then 1 else 0) + countConnected r := by
  by_cases h : d.connected <;>
    simp [countConnected, List.filter, h, Nat.add_comm]

theorem countConnected_eq_zero (r : List BluetoothDeviceInfo)
    (h : ∀ d ∈ r, d.connected = false) : countConnected r = 0 := by
  induction r with
  | nil => rfl
  | cons d rest ih =>
    rw [countConnected_cons, h d (by simp)]
    simp [ih (fun x hx => h x (by simp [hx]))]

theorem countConnected_set_one (x : BluetoothDeviceInfo) (hx : x.connected = true) :
    ∀ (r : List BluetoothDeviceInfo) (idx : Nat), idx < r.length →
      (∀ d ∈ r, d.connected = false) → countConnected (r.set idx x) = 1 := by
  intro r
  induction r with
  | nil => intro idx h _; simp at h
  | cons d rest ih =>
    intro idx hlt hall
    cases idx with
    | zero =>
      simp only [List.set]
      rw [countConnected_cons, hx]
      simp [countConnected_eq_zero rest (fun y hy => hall y (by simp [hy]))]
    | succ n =>
      simp only [List.set]
      rw [countConnected_cons, hall d (by simp)]
      simp only [Bool.false_eq_true, if_false]
      have := ih n (by simpa using hlt) (fun y hy => hall y (by simp [hy]))
      simpa using this

theorem connectIter_failed_keeps (a : ConnectAdapter) (r : List BluetoothDeviceInfo)
    (idx : Nat) (r2 : List BluetoothDeviceInfo) (m : String)
    (h : connectIter a r idx = Except.ok (r2, BluetoothConnectStatus.Failed m)) : r2 = r := by
  unfold connectIter at h
  split at h
  · simp only [Except.ok.injEq, Prod.mk.injEq] at h
    exact h.1.symm
  · split at h
    · split at h
      · simp only [Except.ok.injEq, Prod.mk.injEq] at h
        exact h.1.symm
      · simp at h
    · simp at h

theorem connectIter_finished_count (a : ConnectAdapter) (r : List BluetoothDeviceInfo)
    (idx : Nat) (r2 : List BluetoothDeviceInfo)
    (h : connectIter a r idx = Except.ok (r2, BluetoothConnectStatus.Finished)) :
    countConnected r2 = 1 := by
  unfold connectIter at h
  split at h
  · simp at h
  · rename_i working hd2
    split at h
    · rename_i hlt
      split at h
      · simp at h
      · simp only [Except.ok.injEq, Prod.mk.injEq] at h
        rw [← h.1]
        exact countConnected_set_one _ rfl working idx hlt (disconnectAll_flags a r working hd2)
    · simp at h

theorem connectIter_pair_error (a : ConnectAdapter) (m : String)
    (hdev : ∀ x, a.device x = Except.ok ())
    (hp : ∀ x, a.isPaired x = Except.ok false)
    (hpair : ∀ x, a.pair x = Except.error m) :
    ∀ (r : List BluetoothDeviceInfo) (idx : Nat), (∀ d ∈ r, d.connected = false) →
      idx < r.length →
      connectIter a r idx = Except.ok (r, BluetoothConnectStatus.Failed m) := by
  intro r idx hflags hlt
  have hpc : ∀ x, pairAndConnect a x = Except.error m := by
    intro x
    unfold pairAndConnect
    rw [hdev, hp]
    simp [hpair]
  unfold connectIter
  simp only [disconnectAll_of_flags a r hflags]
  rw [dif_pos hlt, hpc]

theorem trySendScan_index (s : SysState) : (trySendScan s).index = s.index := by
  rw [trySendScan]; split <;> rfl

theorem trySendScan_scanSlot (s : SysState) : (trySendScan s).scanSlot = true := by
  rw [trySendScan]
  split
  · next h => exact h
  · rfl

theorem trySendScan_scanning (s : SysState) : (trySendScan s).scanning = s.scanning := by
  rw [trySendScan]; split <;> rfl

theorem trySendScan_publishes (s : SysState) : (trySendScan s).publishes = s.publishes := by
  rw [trySendScan]; split <;> rfl

theorem trySendScan_scanStatus (s : SysState) : (trySendScan s).scanStatus = s.scanStatus := by
  rw [trySendScan]; split <;> rfl

theorem stepE_powerOn_index (s s2 : SysState) (hp : s.powered = false)
    (h : stepE s Act.powerOn = Except.ok s2) : s2.index = 0 := by
  simp only [stepE, hp, Bool.false_eq_true, if_false, Except.ok.injEq] at h
  rw [← h, trySendScan_index]

theorem stepE_navUp_preserve (s s2 : SysState) (hin : s.index < s.roster.length)
    (h : stepE s Act.navUp = Except.ok s2) :
    s2.index < s2.roster.length ∧ s2.roster = s.roster := by
  simp only [stepE] at h
  split at h
  · split at h
    · split at h
      · simp at h
      · rename_i hlen
        simp only [Except.ok.injEq] at h
        rw [← h]
        exact ⟨by simp; omega, rfl⟩
    · simp only [Except.ok.injEq] at h
      rw [← h]
      exact ⟨by simp; omega, rfl⟩
  · simp only [Except.ok.injEq] at h
    rw [← h]
    exact ⟨hin, rfl⟩

theorem stepE_navDown_preserve (s s2 : SysState) (hin : s.index < s.roster.length)
    (h : stepE s Act.navDown = Except.ok s2) :
    s2.index < s2.roster.length ∧ s2.roster = s.roster := by
  simp only [stepE] at h
  split at h
  · split at h
    · simp at h
    · split at h
      · rename_i hlen _
        simp only [Except.ok.injEq] at h
        rw [← h]
        exact ⟨by simp; omega, rfl⟩
      · rename_i hlen hne
        simp only [Except.ok.injEq] at h
        rw [← h]
        exact ⟨by simp; omega, rfl⟩
  · simp only [Except.ok.injEq] at h
    rw [← h]
    exact ⟨hin, rfl⟩

theorem stepE_powerOff_eq (s : SysState) (hp : s.powered = true) :
    stepE s Act.powerOff = Except.ok { s with
      powered := false, scanStatus := BluetoothScanStatus.Disable, index := 0 } := by
  simp [stepE, hp]

theorem stepE_workerFinish_eq (s : SysState) (evs : List AdapterEvent) (hs : s.scanning = true) :
    stepE s (Act.workerFinish evs) = Except.ok { s with
      scanning := false, roster := scanDevices [] evs,
      scanStatus := BluetoothScanStatus.Finished, publishes := s.publishes + 1,
      connectStatus := if (scanDevices [] evs).any (fun d => d.connected) then
        BluetoothConnectStatus.Finished else s.connectStatus } := by
  simp [stepE, hs]

/-- The conjunction of facts that hold while no scan command was ever
issued: no try_send happened, the channel is empty, the discovery worker
sits idle, and nothing was published. -/
def QuietInv (s : SysState) : Prop :=
  s.scanCmdsSent = 0 ∧ s.scanSlot = false ∧ s.scanning = false ∧ s.publishes = 0

theorem stepE_quiet (s s2 : SysState) (a : Act) (hne : a ≠ Act.powerOn)
    (h : stepE s a = Except.ok s2) (hq : QuietInv s) : QuietInv s2 := by
  obtain ⟨h1, h2, h3, h4⟩ := hq
  cases a with
  | powerOn => exact absurd rfl hne
  | powerOff =>
    simp only [stepE] at h
    split at h <;> (simp only [Except.ok.injEq] at h; rw [← h]; exact ⟨h1, h2, h3, h4⟩)
  | navUp =>
    simp only [stepE] at h
    split at h
    · split at h
      · split at h
        · simp at h
        · simp only [Except.ok.injEq] at h; rw [← h]; exact ⟨h1, h2, h3, h4⟩
      · simp only [Except.ok.injEq] at h; rw [← h]; exact ⟨h1, h2, h3, h4⟩
    · simp only [Except.ok.injEq] at h; rw [← h]; exact ⟨h1, h2, h3, h4⟩
  | navDown =>
    simp only [stepE] at h
    split at h
    · split at h
      · simp at h
      · split at h <;> (simp only [Except.ok.injEq] at h; rw [← h]; exact ⟨h1, h2, h3, h4⟩)
    · simp only [Except.ok.injEq] at h; rw [← h]; exact ⟨h1, h2, h3, h4⟩
  | renderFinished =>
    simp only [stepE] at h
    split at h
    · split at h
      · simp only [Except.ok.injEq] at h; rw [← h]; exact ⟨h1, h2, h3, h4⟩
      · simp at h
    · simp only [Except.ok.injEq] at h; rw [← h]; exact ⟨h1, h2, h3, h4⟩
  | workerRecv =>
    simp only [stepE, h2, Bool.false_and, Bool.false_eq_true, if_false, Except.ok.injEq] at h
    rw [← h]; exact ⟨h1, h2, h3, h4⟩
  | workerFinish evs =>
    simp only [stepE, h3, Bool.false_eq_true, if_false, Except.ok.injEq] at h
    rw [← h]; exact ⟨h1, h2, h3, h4⟩
  | workerFail =>
    simp only [stepE, h3, Bool.false_eq_true, if_false, Except.ok.injEq] at h
    rw [← h]; exact ⟨h1, h2, h3, h4⟩

theorem run_quiet (acts : List Act) :
    ∀ s s2 : SysState, (∀ a ∈ acts, a ≠ Act.powerOn) → QuietInv s →
      run s acts = Except.ok s2 → QuietInv s2 := by
  induction acts with
  | nil =>
    intro s s2 _ hq h
    simp only [run, Except.ok.injEq] at h
    rw [← h]
    exact hq
  | cons a rest ih =>
    intro s s2 hne hq h
    rw [run] at h
    cases hst : stepE s a with
    | error e => rw [hst] at h; simp at h
    | ok s1 =>
      rw [hst] at h
      exact ih s1 s2 (fun x hx => hne x (List.mem_cons_of_mem a hx))
        (stepE_quiet s s1 a (hne a (List.mem_cons_self a rest)) hst hq) h

theorem trySendScan_twice (s : SysState) (h3 : s.scanSlot = false) :
    trySendScan (trySendScan s) =
      { trySendScan s with scanCmdsSent := (trySendScan s).scanCmdsSent + 1 } := by
  simp [trySendScan, h3]

theorem run_drain (s : SysState) (e1 e2 e3 : List AdapterEvent)
    (hscan : s.scanning = true) (hslot : s.scanSlot = true) :
    (run s [Act.workerFinish e1, Act.workerRecv, Act.workerFinish e2]).map SysState.publishes =
        Except.ok (s.publishes + 2) ∧
    (run s [Act.workerFinish e1, Act.workerRecv, Act.workerFinish e2,
        Act.workerRecv, Act.workerFinish e3]).map SysState.publishes =
        Except.ok (s.publishes + 2) := by
  simp [run, stepE, hscan, hslot, Except.map]

/-- C1: counterexample. The discovery worker copies the adapter-reported
connected flags into the roster it publishes without any uniqueness
enforcement (main.rs lines 395 to 413 and 433): a scan in which two
discovered devices both report connected produces a reachable state whose
published roster holds two records with connected = true, refuting the
claimed invariant that every reachable state has at most one. -/
theorem C1_counterexample :
    (run (initState true) [Act.workerRecv,
        Act.workerFinish [AdapterEvent.deviceAdded 1 (some [DeviceProperty.connected true]),
          AdapterEvent.deviceAdded 2 (some [DeviceProperty.connected true])]]).map
      (fun s => countConnected s.roster) = Except.ok 2 ∧ ¬(2 ≤ 1) :=
  ⟨rfl, by decide⟩

/-- C1 (amended): every roster the connection worker publishes on success
contains exactly one record with connected = true, because the disconnect
loop of main.rs lines 499 to 506 clears every connected flag in the
working copy before line 519 sets the flag of the selected device. The
discovery worker performs no such enforcement (see the counterexample), so
the invariant holds for connection-worker publishes only. -/
theorem C1_connect_publish_unique (a : ConnectAdapter) (r : List BluetoothDeviceInfo)
    (idx : Nat) (r2 : List BluetoothDeviceInfo)
    (h : connectIter a r idx = Except.ok (r2, BluetoothConnectStatus.Finished)) :
    countConnected r2 = 1 :=
  connectIter_finished_count a r idx r2 h

/-- C1 witness: a concrete successful connection on a one-device roster. -/
theorem C1_connect_publish_unique_witness :
    connectIter okAdapter [{ BluetoothDeviceInfo.defaultInfo with addr := 7 }] 0 =
      Except.ok ([{ BluetoothDeviceInfo.defaultInfo with addr := 7, connected := true }],
        BluetoothConnectStatus.Finished) ∧
    countConnected [{ BluetoothDeviceInfo.defaultInfo with addr := 7, connected := true }] = 1 :=
  ⟨rfl, C1_connect_publish_unique okAdapter [{ BluetoothDeviceInfo.defaultInfo with addr := 7 }] 0
    [{ BluetoothDeviceInfo.defaultInfo with addr := 7, connected := true }] rfl⟩

/-- C2: counterexample. A scan that finds no devices publishes an empty
roster and sets the scan status to Finished while the selection index
stays 0; the index then lies outside the empty range [0, roster.len()),
and no clamping code exists to repair it before the next read (main.rs
line 300 reads devices[index] unguarded). -/
theorem C2_counterexample :
    (run (initState true) [Act.workerRecv, Act.workerFinish []]).map
      (fun s => (decide (s.index < s.roster.length), s.scanStatus)) =
      Except.ok (false, BluetoothScanStatus.Finished) := rfl

/-- C2 (amended): the selection index is reset to 0 whenever a new scan
begins (the power-on handler at main.rs line 174, the only place a scan
command is issued after startup), and the Up and Down handlers keep the
index inside [0, roster.len()) of the unchanged roster they read; but the
program performs no clamping when the roster is replaced, so after a
shorter (for example empty) roster is published the stale index can lie
outside [0, roster.len()) at the next read. -/
theorem C2_index_reset_not_clamped :
    (∀ s s2 : SysState, s.powered = false → stepE s Act.powerOn = Except.ok s2 →
      s2.index = 0) ∧
    (∀ s s2 : SysState, s.index < s.roster.length → stepE s Act.navUp = Except.ok s2 →
      s2.index < s2.roster.length ∧ s2.roster = s.roster) ∧
    (∀ s s2 : SysState, s.index < s.roster.length → stepE s Act.navDown = Except.ok s2 →
      s2.index < s2.roster.length ∧ s2.roster = s.roster) :=
  ⟨stepE_powerOn_index, stepE_navUp_preserve, stepE_navDown_preserve⟩

/-- A one-device state with a finished scan, used to witness C2. -/
def navState : SysState :=
  { powered := true, scanStatus := BluetoothScanStatus.Finished,
    roster := [BluetoothDeviceInfo.defaultInfo], index := 0,
    connectStatus := BluetoothConnectStatus.Disable, scanSlot := false, scanning := false,
    publishes := 1, scanCmdsSent := 1 }

/-- C2 witness: navigating up on a finished one-device roster keeps the
index in range. -/
theorem C2_index_reset_not_clamped_witness :
    navState.index < navState.roster.length ∧
    stepE navState Act.navUp = Except.ok navState ∧
    navState.index < navState.roster.length ∧ navState.roster = navState.roster :=
  ⟨by decide, rfl, C2_index_reset_not_clamped.2.1 navState navState (by decide) rfl⟩

/-- C3: counterexample. The discovery worker pushes a record for every
deviceAdded event with no duplicate check (main.rs line 413): a scan
window that delivers deviceAdded twice for the same address yields a
roster in which that identifier appears twice, refuting the claim that for
every event sequence each added and not subsequently removed identifier
appears exactly once. -/
theorem C3_counterexample :
    (scanDevices [] [AdapterEvent.deviceAdded 1 (some []),
      AdapterEvent.deviceAdded 1 (some [])]).map (fun d => d.addr) = [1, 1] ∧
    countAddr 1 [1, 1] = 2 := by decide

/-- C3 (amended): for every event sequence in which each added device's
property fetch succeeds and no identifier is added while still present in
the collected list, the roster published at the end of the scan window
carries exactly the identifiers added and not subsequently removed (the
spec-modelled expectedIds), each exactly once. -/
theorem C3_roster_exact (evs : List AdapterEvent) (h : goodEvents [] evs = true) :
    (scanDevices [] evs).map (fun d => d.addr) = expectedIds [] evs ∧
    nodupAddrs (expectedIds [] evs) = true :=
  ⟨scanDevices_map_addr evs [] h, expectedIds_nodup evs [] h rfl⟩

/-- A scan window with two surviving devices and one removed, used to
witness C3. -/
def c3Events : List AdapterEvent :=
  [AdapterEvent.deviceAdded 1 (some [DeviceProperty.name "headset"]),
    AdapterEvent.deviceAdded 2 (some []), AdapterEvent.deviceRemoved 1,
    AdapterEvent.deviceAdded 3 (some [DeviceProperty.paired true])]

/-- C3 witness: the concrete scan window c3Events is well formed and its
published roster is exactly [2, 3], each once. -/
theorem C3_roster_exact_witness :
    goodEvents [] c3Events = true ∧
    ((scanDevices [] c3Events).map (fun d => d.addr) = expectedIds [] c3Events ∧
      nodupAddrs (expectedIds [] c3Events) = true) :=
  ⟨by decide, C3_roster_exact c3Events (by decide)⟩

/-- C4: the claim fails on the code. A connect command whose selection
index is outside the roster the worker loads is not converted into a
terminal Connect Status value: the Vec indexing device_infos[idx] at
main.rs line 509 sits outside the caught-error plumbing, panics, and kills
the worker task with the status still Connecting (first conjunct: the
model returns the panic marker Except.error ()). An in-range failure of
the pair step, by contrast, is converted to Failed with the error message
(second conjunct), which is what the claim asserts for all failures. -/
theorem C4_out_of_range_uncaught :
    connectIter okAdapter [] 0 = Except.error () ∧
    connectIter pairFailAdapter [{ BluetoothDeviceInfo.defaultInfo with addr := 7 }] 0 =
      Except.ok ([{ BluetoothDeviceInfo.defaultInfo with addr := 7 }],
        BluetoothConnectStatus.Failed "pairing rejected") :=
  ⟨rfl, rfl⟩

/-- C5: an adapter-level error while opening the device-event stream (the
only fallible adapter-level step of the scan; the stream itself yields
plain events) makes the scan cycle end with Scan Status Failed and leaves
both the published roster and the connect status exactly as they were
before the scan began, publishing nothing (first conjunct); a per-device
property-fetch failure merely skips that device and the scan continues
(second conjunct). -/
theorem C5_adapter_error_no_publish :
    (∀ (r : List BluetoothDeviceInfo) (cs : BluetoothConnectStatus) (e : String),
      scanCycle r cs (Except.error e) = (BluetoothScanStatus.Failed, r, cs)) ∧
    (∀ (r : List BluetoothDeviceInfo) (cs : BluetoothConnectStatus) (a : Address)
        (rest : List AdapterEvent),
      scanCycle r cs (Except.ok (AdapterEvent.deviceAdded a none :: rest)) =
        scanCycle r cs (Except.ok rest)) :=
  ⟨fun _ _ _ => rfl, fun _ _ _ _ => rfl⟩

/-- C6: when any disconnect, pair, or connect step of a connection attempt
fails, the worker stores Connect Status Failed carrying the error message
and publishes nothing, so the published roster (its connected flags
included) is exactly its pre-attempt value; nothing that happened earlier
in the attempt is visible or rolled back in the published roster. First
conjunct: every Failed outcome leaves the published roster untouched.
Second conjunct: an in-range attempt on an adapter whose pair step fails
with message m ends in Failed m with the roster unchanged. -/
theorem C6_failure_keeps_roster :
    (∀ (a : ConnectAdapter) (r : List BluetoothDeviceInfo) (idx : Nat)
        (r2 : List BluetoothDeviceInfo) (m : String),
      connectIter a r idx = Except.ok (r2, BluetoothConnectStatus.Failed m) → r2 = r) ∧
    (∀ (a : ConnectAdapter) (m : String),
      (∀ x, a.device x = Except.ok ()) → (∀ x, a.isPaired x = Except.ok false) →
      (∀ x, a.pair x = Except.error m) →
      ∀ (r : List BluetoothDeviceInfo) (idx : Nat), (∀ d ∈ r, d.connected = false) →
        idx < r.length →
        connectIter a r idx = Except.ok (r, BluetoothConnectStatus.Failed m)) :=
  ⟨connectIter_failed_keeps, connectIter_pair_error⟩

/-- C6 witness: a pairing failure on a concrete one-device roster ends in
Failed with the pairing error message and the roster unchanged. -/
theorem C6_failure_keeps_roster_witness :
    connectIter pairFailAdapter [{ BluetoothDeviceInfo.defaultInfo with addr := 7 }] 0 =
      Except.ok ([{ BluetoothDeviceInfo.defaultInfo with addr := 7 }],
        BluetoothConnectStatus.Failed "pairing rejected") :=
  C6_failure_keeps_roster.2 pairFailAdapter "pairing rejected" (fun _ => rfl) (fun _ => rfl)
    (fun _ => rfl) [{ BluetoothDeviceInfo.defaultInfo with addr := 7 }] 0
    (by decide) (by decide)

/-- C7: counterexample. Power the radio off mid-scan, then let the scan
window elapse: the worker checks nothing before its final stores (main.rs
lines 429 to 435), so it publishes its roster and overwrites the scan
status with Finished for the powered-off radio. Scan Status does not stay
Disabled and the in-flight publish is not discarded. -/
theorem C7_counterexample :
    (run (initState true) [Act.workerRecv, Act.powerOff,
        Act.workerFinish [AdapterEvent.deviceAdded 1 (some [])]]).map
      (fun s => (s.scanStatus, s.powered, s.publishes, s.roster.length)) =
      Except.ok (BluetoothScanStatus.Finished, false, 1, 1) := rfl

/-- C7 (amended): powering the radio off mid-scan stores Scan Status
Disabled and leaves the worker flag untouched (first conjunct), but the
in-flight scan is not cancelled: when its window elapses the worker still
publishes the collected roster and overwrites the scan status with
Finished (second conjunct). -/
theorem C7_powerOff_not_cancelling :
    (∀ s : SysState, s.powered = true → stepE s Act.powerOff = Except.ok { s with
      powered := false, scanStatus := BluetoothScanStatus.Disable, index := 0 }) ∧
    (∀ (s : SysState) (evs : List AdapterEvent), s.scanning = true →
      stepE s (Act.workerFinish evs) = Except.ok { s with
        scanning := false, roster := scanDevices [] evs,
        scanStatus := BluetoothScanStatus.Finished, publishes := s.publishes + 1,
        connectStatus := if (scanDevices [] evs).any (fun d => d.connected) then
          BluetoothConnectStatus.Finished else s.connectStatus }) :=
  ⟨stepE_powerOff_eq, stepE_workerFinish_eq⟩

/-- A state in which the radio was powered off while the discovery worker
is still mid-cycle, used to witness C7. -/
def midScanState : SysState :=
  { powered := false, scanStatus := BluetoothScanStatus.Disable, roster := [], index := 0,
    connectStatus := BluetoothConnectStatus.Disable, scanSlot := false, scanning := true,
    publishes := 0, scanCmdsSent := 1 }

/-- C7 witness: the scan window elapsing in midScanState publishes and
stores Finished despite the radio being off. -/
theorem C7_powerOff_not_cancelling_witness :
    midScanState.scanning = true ∧
    stepE midScanState (Act.workerFinish []) = Except.ok { midScanState with
      scanning := false, roster := [], scanStatus := BluetoothScanStatus.Finished,
      publishes := 1, connectStatus := BluetoothConnectStatus.Disable } :=
  ⟨rfl, C7_powerOff_not_cancelling.2 midScanState [] rfl⟩

/-- C8: while a scan is underway (Scan Status Scanning, worker mid-cycle,
channel slot empty), issuing the same scan command twice in immediate
succession queues exactly one command: the first try_send fills the
capacity-1 slot, the second is dropped with only the attempt counter
moving (first two conjuncts), so commands never queue more than one deep;
draining the worker then produces exactly one scan cycle for the pair: the
publish count rises by two (one publish for the cycle already in flight,
one for the coalesced pair) and stays there even if the worker keeps
polling afterwards (last two conjuncts). -/
theorem C8_duplicate_scan_coalesced (s : SysState) (e1 e2 e3 : List AdapterEvent)
    (_hst : s.scanStatus = BluetoothScanStatus.Scanning) (hscan : s.scanning = true)
    (hslot : s.scanSlot = false) :
    (trySendScan (trySendScan s)).scanSlot = true ∧
    trySendScan (trySendScan s) =
      { trySendScan s with scanCmdsSent := (trySendScan s).scanCmdsSent + 1 } ∧
    (run (trySendScan (trySendScan s)) [Act.workerFinish e1, Act.workerRecv,
        Act.workerFinish e2]).map SysState.publishes = Except.ok (s.publishes + 2) ∧
    (run (trySendScan (trySendScan s)) [Act.workerFinish e1, Act.workerRecv,
        Act.workerFinish e2, Act.workerRecv, Act.workerFinish e3]).map SysState.publishes =
      Except.ok (s.publishes + 2) := by
  have h1 : (trySendScan (trySendScan s)).scanning = true := by
    rw [trySendScan_scanning, trySendScan_scanning]; exact hscan
  have h2 : (trySendScan (trySendScan s)).scanSlot = true := trySendScan_scanSlot _
  have h3 := run_drain (trySendScan (trySendScan s)) e1 e2 e3 h1 h2
  have h4 : (trySendScan (trySendScan s)).publishes = s.publishes := by
    rw [trySendScan_publishes, trySendScan_publishes]
  rw [h4] at h3
  exact ⟨h2, trySendScan_twice s hslot, h3.1, h3.2⟩

/-- A state with the discovery worker mid-scan and the command slot empty,
used to witness C8. -/
def c8State : SysState :=
  { powered := true, scanStatus := BluetoothScanStatus.Scanning, roster := [], index := 0,
    connectStatus := BluetoothConnectStatus.Disable, scanSlot := false, scanning := true,
    publishes := 0, scanCmdsSent := 1 }

/-- C8 witness: two immediate duplicate sends on c8State leave exactly two
publishes after the worker drains, not three. -/
theorem C8_duplicate_scan_coalesced_witness :
    c8State.scanStatus = BluetoothScanStatus.Scanning ∧ c8State.scanning = true ∧
    c8State.scanSlot = false ∧
    (run (trySendScan (trySendScan c8State)) [Act.workerFinish [], Act.workerRecv,
        Act.workerFinish [], Act.workerRecv, Act.workerFinish []]).map SysState.publishes =
      Except.ok 2 :=
  ⟨rfl, rfl, rfl, (C8_duplicate_scan_coalesced c8State [] [] [] rfl rfl rfl).2.2.2⟩

/-- C9: the claim is right and the code is wrong. After a scan window with
no devices the scan status is Finished and the published roster empty;
pressing Up or Down then evaluates len() - 1 on the empty roster (usize
underflow, main.rs lines 199 and 211), and the render path indexes
devices[selected_bluetooth_device_index] on the empty Vec (main.rs line
300): every continuation of the frame loop faults instead of leaving the
selection index unchanged. -/
theorem C9_empty_roster_faults :
    run (initState true) [Act.workerRecv, Act.workerFinish [], Act.navUp] =
      Except.error "attempt to subtract with overflow" ∧
    run (initState true) [Act.workerRecv, Act.workerFinish [], Act.navDown] =
      Except.error "attempt to subtract with overflow" ∧
    run (initState true) [Act.workerRecv, Act.workerFinish [], Act.renderFinished] =
      Except.error "index out of bounds" :=
  ⟨rfl, rfl, rfl⟩

/-- C10: at startup exactly one scan command is issued (a single try_send,
which lands in the empty capacity-1 slot) when the adapter reports
powered, and none when it does not; and along any sequence of actions that
never powers the radio on, no scan command is ever sent, the channel stays
empty, the worker stays idle and publishes nothing. -/
theorem C10_startup_scan :
    (initState true).scanCmdsSent = 1 ∧ (initState true).scanSlot = true ∧
    (initState false).scanCmdsSent = 0 ∧ (initState false).scanSlot = false ∧
    (∀ (acts : List Act) (s : SysState), (∀ a ∈ acts, a ≠ Act.powerOn) →
      run (initState false) acts = Except.ok s →
      s.scanCmdsSent = 0 ∧ s.scanSlot = false ∧ s.scanning = false ∧ s.publishes = 0) :=
  ⟨rfl, rfl, rfl, rfl,
    fun acts s hne h => run_quiet acts (initState false) s hne ⟨rfl, rfl, rfl, rfl⟩ h⟩

/-- C10 witness: a concrete power-on-free action sequence from the
unpowered start leaves the system with no command sent and no publish. -/
theorem C10_startup_scan_witness :
    run (initState false) [Act.navUp, Act.powerOff, Act.workerRecv] =
      Except.ok (initState false) ∧
    (initState false).scanCmdsSent = 0 ∧ (initState false).scanSlot = false ∧
    (initState false).scanning = false ∧ (initState false).publishes = 0 :=
  ⟨rfl, C10_startup_scan.2.2.2.2 [Act.navUp, Act.powerOff, Act.workerRecv]
    (initState false) (by decide) rfl⟩
